import Mathlib

/-!
Verification development for the GoBase repository: a shallow embedding of
the query-builder (src/query/query_builder.go and the builder variant listed
in src/query/README.md), the repository query construction
(the repository code accompanying src/query/query_builder.go and
src/repository/generic_repository.go), the field registry (src/unnamed/part_001),
and the result envelope (src/unnamed/part_001, package result), together with
theorems settling the specification claims.

Go `interface{}` argument values are modelled by the inductive `Val`;
machine `int` is modelled by `Int` (no overflow is relevant to any claim);
`panic` is modelled by `Except.error`.
-/

namespace GoBase

/-- An argument value (`interface{}` in the Go source): an integer or a string. -/
inductive Val where
  | intV (n : Int)
  | strV (s : String)
deriving DecidableEq, Repr

/-- Go `strings.Join(elems, sep)`: empty list gives `""`, otherwise the
elements concatenated with `sep` between consecutive elements. -/
def goJoin (elems : List String) (sep : String) : String :=
  match elems with
  | [] => ""
  | x :: xs => xs.foldl (fun acc e => acc ++ sep ++ e) x

/-- Go `strings.ToLower` as used on type names: lowercase every character.
(Type names in this code base are ASCII, for which `Char.toLower` agrees
with Go's Unicode lowering.) -/
def goToLower (s : String) : String := ⟨s.data.map Char.toLower⟩

/-- The mutable state of `QueryBuilder[T]` from src/query/query_builder.go:
select columns, WHERE fragments with their shared positional argument list,
JOIN fragments, the limit, ORDER BY fragments, and insert/update columns. -/
structure QueryBuilder where
  selectFields : List String := []
  whereClauses : List String := []
  whereArgs    : List Val    := []
  joins        : List String := []
  limit        : Int         := 0
  orderBy      : List String := []
  insertFields : List String := []
  insertValues : List Val    := []
  updateFields : List String := []
deriving DecidableEq, Repr

/-- `NewQueryBuilder[T]()`: the zero-valued builder. -/
def NewQueryBuilder : QueryBuilder := {}

/-- A concrete entity value handed to `Insert`/`Update`: the declared fields
of the Go struct value, in declaration order, each with its value. -/
structure EntityVal where
  fields : List (String × Val)
deriving DecidableEq, Repr

/-- `Insert(data)`: for each declared field, append the field name to
`insertFields` and its value to `insertValues`. -/
def QueryBuilder.Insert (qb : QueryBuilder) (data : EntityVal) : QueryBuilder :=
  data.fields.foldl
    (fun qb fv =>
      { qb with insertFields := qb.insertFields ++ [fv.1],
                insertValues := qb.insertValues ++ [fv.2] })
    qb

/-- `Update(data)`: for each declared field, append `"<field> = ?"` to
`updateFields` and the field value to the shared `whereArgs` list. -/
def QueryBuilder.Update (qb : QueryBuilder) (data : EntityVal) : QueryBuilder :=
  data.fields.foldl
    (fun qb fv =>
      { qb with updateFields := qb.updateFields ++ [fv.1 ++ " = ?"],
                whereArgs := qb.whereArgs ++ [fv.2] })
    qb

/-- `Delete()`: returns the builder unchanged. -/
def QueryBuilder.Delete (qb : QueryBuilder) : QueryBuilder := qb

/-- `Select(fields...)`: append the given column names to the select list. -/
def QueryBuilder.Select (qb : QueryBuilder) (fields : List String) : QueryBuilder :=
  { qb with selectFields := qb.selectFields ++ fields }

/-- `WhereEqual(field, value)`: append `"<field> = ?"` to the WHERE fragments
and the value to the positional argument list. -/
def QueryBuilder.WhereEqual (qb : QueryBuilder) (field : String) (value : Val) : QueryBuilder :=
  { qb with whereClauses := qb.whereClauses ++ [field ++ " = ?"],
            whereArgs := qb.whereArgs ++ [value] }

/-- `OrderByASC(field)`: append `"<field> ASC"` to the ORDER BY fragments. -/
def QueryBuilder.OrderByASC (qb : QueryBuilder) (field : String) : QueryBuilder :=
  { qb with orderBy := qb.orderBy ++ [field ++ " ASC"] }

/-- `OrderByDESC(field)`: append `"<field> DESC"` to the ORDER BY fragments. -/
def QueryBuilder.OrderByDESC (qb : QueryBuilder) (field : String) : QueryBuilder :=
  { qb with orderBy := qb.orderBy ++ [field ++ " DESC"] }

/-- `Join(table, onCondition)`: append a raw JOIN fragment. -/
def QueryBuilder.Join (qb : QueryBuilder) (table onCondition : String) : QueryBuilder :=
  { qb with joins := qb.joins ++ ["JOIN " ++ table ++ " ON " ++ onCondition] }

/-- `Limit(limit)`: store the limit. -/
def QueryBuilder.Limit (qb : QueryBuilder) (limit : Int) : QueryBuilder :=
  { qb with limit := limit }

/-- `Build()` from src/query/query_builder.go. The Go method derives the table
name from the entity type parameter `T`; here the type name is passed
explicitly. Since the Go method mutates the receiver (the SELECT branch
appends the limit to `whereArgs`), the post-call builder state is returned as
the third component. -/
def QueryBuilder.Build (qb : QueryBuilder) (typeName : String) :
    String × List Val × QueryBuilder :=
  let tableName := goToLower typeName
  let whereClause := " WHERE "
  if qb.insertFields.length > 0 then
    ("INSERT INTO " ++ tableName ++ " (" ++ goJoin qb.insertFields ", " ++
       ") VALUES (" ++ goJoin (List.replicate qb.insertFields.length "?") ", " ++ ")",
     qb.insertValues, qb)
  else if qb.updateFields.length > 0 then
    let base := "UPDATE " ++ tableName ++ " SET " ++ goJoin qb.updateFields ", "
    let sql :=
      if qb.whereClauses.length > 0 then
        base ++ whereClause ++ goJoin qb.whereClauses " AND "
      else base
    (sql, qb.whereArgs, qb)
  else if qb.whereClauses.length > 0 ∧ qb.insertFields.length = 0 then
    ("DELETE FROM " ++ tableName ++ whereClause ++ goJoin qb.whereClauses " AND ",
     qb.whereArgs, qb)
  else
    let s1 := "SELECT " ++
      (if qb.selectFields.length > 0 then goJoin qb.selectFields ", " else "*") ++
      " FROM " ++ tableName
    let s2 := if qb.joins.length > 0 then s1 ++ " " ++ goJoin qb.joins " " else s1
    let s3 :=
      if qb.whereClauses.length > 0 then
        s2 ++ whereClause ++ goJoin qb.whereClauses " AND "
      else s2
    let s4 :=
      if qb.orderBy.length > 0 then s3 ++ " ORDER BY " ++ goJoin qb.orderBy ", " else s3
    if qb.limit > 0 then
      (s4 ++ " LIMIT ?", qb.whereArgs ++ [Val.intV qb.limit],
       { qb with whereArgs := qb.whereArgs ++ [Val.intV qb.limit] })
    else
      (s4, qb.whereArgs, qb)

/-- `Build()` of the builder variant listed in src/query/README.md
(lines 187-217): always renders a SELECT statement — select list, FROM,
joins, WHERE, ORDER BY, and LIMIT (which appends its value to `whereArgs`). -/
def QueryBuilder.BuildReadme (qb : QueryBuilder) (typeName : String) :
    String × List Val × QueryBuilder :=
  let s1 := "SELECT " ++
    (if qb.selectFields.length > 0 then goJoin qb.selectFields ", " else "*") ++
    " FROM " ++ goToLower typeName
  let s2 := if qb.joins.length > 0 then s1 ++ " " ++ goJoin qb.joins " " else s1
  let s3 :=
    if qb.whereClauses.length > 0 then
      s2 ++ " WHERE " ++ goJoin qb.whereClauses " AND "
    else s2
  let s4 :=
    if qb.orderBy.length > 0 then s3 ++ " ORDER BY " ++ goJoin qb.orderBy ", " else s3
  if qb.limit > 0 then
    (s4 ++ " LIMIT ?", qb.whereArgs ++ [Val.intV qb.limit],
     { qb with whereArgs := qb.whereArgs ++ [Val.intV qb.limit] })
  else
    (s4, qb.whereArgs, qb)

/-- The query construction inside `GenericRepository.GetByID` (the repository
code accompanying src/query/query_builder.go):
`NewQueryBuilder[T]().WhereEqual("ID", id).Limit(1).Build()`.
The database round trip (`QueryRow`/`Scan`) is not modelled; this is the
statement and argument list that the code hands to `QueryRow`. -/
def GetByID_query (typeName : String) (id : Val) : String × List Val × QueryBuilder :=
  ((NewQueryBuilder.WhereEqual "ID" id).Limit 1).Build typeName

end GoBase

namespace GoBase

/-! ## Field registry (src/unnamed/part_001, package utils) -/

/-- A declared struct field as seen by the registry: its name and the value
of the `db` tag when present. -/
structure ModelField where
  name : String
  dbTag : Option String
deriving DecidableEq, Repr

/-- A model type handed to `RegisterModels`: its bare type name and its
declared fields in declaration order. -/
structure Model where
  typeName : String
  fields : List ModelField
deriving DecidableEq, Repr

/-- Go map assignment `m[k] = v`: replace the existing binding for `k`,
or add one. -/
def goMapStore {α : Type} : List (String × α) → String → α → List (String × α)
  | [], k, v => [(k, v)]
  | (k1, v1) :: rest, k, v =>
      if k1 = k then (k, v) :: rest else (k1, v1) :: goMapStore rest k v

/-- Go map read `m[k]`. -/
def goMapLoad {α : Type} : List (String × α) → String → Option α
  | [], _ => none
  | (k1, v1) :: rest, k => if k1 = k then some v1 else goMapLoad rest k

/-- The process-wide `modelFieldCache`: type name to field-name→column map. -/
abbrev Registry := List (String × List (String × String))

/-- The column resolved for one field inside `registerModel`: the `db` tag
value when present, else the field's own name. -/
def columnOf (f : ModelField) : String :=
  match f.dbTag with
  | some tag => tag
  | none => f.name

/-- The field map built by `registerModel`: for each declared field, the
column is the `db` tag value when present, else the field's own name. -/
def buildFieldMap (fields : List ModelField) : List (String × String) :=
  fields.foldl (fun m f => goMapStore m f.name (columnOf f)) []

/-- `registerModel(model)`: store the model's field map under its type name. -/
def registerModel (cache : Registry) (model : Model) : Registry :=
  goMapStore cache model.typeName (buildFieldMap model.fields)

/-- `RegisterModels(models...)` run on the initially empty cache. -/
def RegisterModels (models : List Model) : Registry :=
  models.foldl registerModel []

/-- `GetFields[T]()`: return the cached field map for the type, or panic
(modelled as `Except.error`) when the type was never registered. -/
def GetFields (cache : Registry) (typeName : String) :
    Except String (List (String × String)) :=
  match goMapLoad cache typeName with
  | some fieldMap => .ok fieldMap
  | none => .error ("Fields not found for model: " ++ typeName)

/-- `GetField(model, fieldName)`: return the cached column for the field, or
panic (modelled as `Except.error`) when the type was never registered or the
field name is absent from its map. -/
def GetField (cache : Registry) (typeName fieldName : String) : Except String String :=
  match goMapLoad cache typeName with
  | some fieldMap =>
      match goMapLoad fieldMap fieldName with
      | some column => .ok column
      | none => .error ("Field not found: " ++ fieldName)
  | none => .error ("Field not found: " ++ fieldName)

/-! ## Result envelope (src/unnamed/part_001, package result) -/

/-- `RestfulResult[T]`. -/
structure RestfulResult (T : Type) where
  data : T
  message : String
  code : Int
  success : Bool
deriving DecidableEq, Repr

/-- `NewSuccessResult(data, message)`: code 200, success true. -/
def NewSuccessResult {T : Type} (data : T) (message : String) : RestfulResult T :=
  { data := data, message := message, code := 200, success := true }

/-- `NewSuccessResultWithCode(data, code, message)`: panics (modelled as
`Except.error`) when `code < 200 || code >= 300`, else returns the result
with the given code and success true. -/
def NewSuccessResultWithCode {T : Type} (data : T) (code : Int) (message : String) :
    Except String (RestfulResult T) :=
  if code < 200 ∨ code ≥ 300 then
    .error "Success code must be in the range 200-299"
  else
    .ok { data := data, message := message, code := code, success := true }

/-- `NewErrorResult(message, code)`. -/
def NewErrorResult {T : Type} [Inhabited T] (message : String) (code : Int) :
    RestfulResult T :=
  { data := default, message := message, code := code, success := false }

/-! ## Concrete example states used to instantiate the theorems -/

/-- The builder of the README usage example:
`Select("id","name").WhereEqual("age",25).OrderByASC("name").Limit(10)`. -/
def selectExampleBuilder : QueryBuilder :=
  ((((NewQueryBuilder.Select ["id", "name"]).WhereEqual "age"
      (Val.intV 25)).OrderByASC "name").Limit 10)

/-- A builder holding both insert columns and a WHERE clause. -/
def qbInsertWhere : QueryBuilder :=
  (NewQueryBuilder.Insert ⟨[("ID", Val.intV 1)]⟩).WhereEqual "x" (Val.intV 2)

/-- A builder state in the SELECT path with a positive limit and a
pre-existing argument list. -/
def qbLimitEx : QueryBuilder :=
  { NewQueryBuilder with whereArgs := [Val.intV 9], limit := 3 }

/-- A builder with one select column and no limit. -/
def qbSelectEx : QueryBuilder := NewQueryBuilder.Select ["id"]

/-- An entity value with one declared field. -/
def updateEntityEx : EntityVal := ⟨[("Name", Val.strV "x")]⟩

/-- A model with an untagged field and a `db`-tagged field. -/
def userModel : Model := ⟨"User", [⟨"ID", none⟩, ⟨"Name", some "name"⟩]⟩

/-- A registry holding one registered model. -/
def regExample : Registry := RegisterModels [⟨"User", [⟨"ID", some "id"⟩]⟩]

end GoBase

namespace GoBase

/-! ## Helper lemmas -/

theorem goMapLoad_goMapStore_self {α : Type} (m : List (String × α)) (k : String) (v : α) :
    goMapLoad (goMapStore m k v) k = some v := by
  induction m with
  | nil => simp [goMapStore, goMapLoad]
  | cons hd tl ih =>
      obtain ⟨k1, v1⟩ := hd
      by_cases h : k1 = k
      · simp [goMapStore, goMapLoad, h]
      · simp [goMapStore, goMapLoad, h, ih]

theorem goMapLoad_goMapStore_ne {α : Type} (m : List (String × α)) (k k1 : String) (v : α)
    (hne : k1 ≠ k) : goMapLoad (goMapStore m k1 v) k = goMapLoad m k := by
  induction m with
  | nil => simp [goMapStore, goMapLoad, hne]
  | cons hd tl ih =>
      obtain ⟨k2, v2⟩ := hd
      by_cases h : k2 = k1
      · simp [goMapStore, goMapLoad, h, hne]
      · simp only [goMapStore, goMapLoad, if_neg h]
        by_cases h2 : k2 = k <;> simp [goMapLoad, h2, ih]

theorem foldl_registerModel_not_mem (models : List Model) (r : Registry) (t : String)
    (ht : t ∉ models.map Model.typeName) :
    goMapLoad (models.foldl registerModel r) t = goMapLoad r t := by
  induction models generalizing r with
  | nil => rfl
  | cons hd tl ih =>
      simp only [List.map_cons, List.mem_cons, not_or] at ht
      simp only [List.foldl_cons]
      rw [ih _ ht.2, registerModel, goMapLoad_goMapStore_ne _ _ _ _ (fun h => ht.1 h.symm)]

theorem foldl_registerModel_mem (models : List Model) (r : Registry) (m : Model)
    (hm : m ∈ models) (hnodup : (models.map Model.typeName).Nodup) :
    goMapLoad (models.foldl registerModel r) m.typeName = some (buildFieldMap m.fields) := by
  induction models generalizing r with
  | nil => cases hm
  | cons hd tl ih =>
      simp only [List.map_cons, List.nodup_cons] at hnodup
      rcases List.mem_cons.mp hm with he | hm2
      · subst he
        simp only [List.foldl_cons]
        rw [foldl_registerModel_not_mem tl _ _ hnodup.1, registerModel,
          goMapLoad_goMapStore_self]
      · simp only [List.foldl_cons]
        exact ih _ hm2 hnodup.2

theorem foldl_fieldStore_not_mem (fields : List ModelField) (m0 : List (String × String))
    (t : String) (ht : t ∉ fields.map ModelField.name) :
    goMapLoad (fields.foldl (fun m g => goMapStore m g.name (columnOf g)) m0) t
      = goMapLoad m0 t := by
  induction fields generalizing m0 with
  | nil => rfl
  | cons hd tl ih =>
      simp only [List.map_cons, List.mem_cons, not_or] at ht
      simp only [List.foldl_cons]
      rw [ih _ ht.2, goMapLoad_goMapStore_ne _ _ _ _ (fun h => ht.1 h.symm)]

theorem buildFieldMap_lookup (fields : List ModelField) (f : ModelField)
    (hf : f ∈ fields) (hnodup : (fields.map ModelField.name).Nodup) :
    goMapLoad (buildFieldMap fields) f.name = some (columnOf f) := by
  suffices h : ∀ m0, goMapLoad
      (fields.foldl (fun m g => goMapStore m g.name (columnOf g)) m0) f.name
      = some (columnOf f) from h []
  induction fields with
  | nil => cases hf
  | cons hd tl ih =>
      intro m0
      simp only [List.map_cons, List.nodup_cons] at hnodup
      rcases List.mem_cons.mp hf with he | hf2
      · subst he
        simp only [List.foldl_cons]
        rw [foldl_fieldStore_not_mem tl _ _ hnodup.1, goMapLoad_goMapStore_self]
      · simp only [List.foldl_cons]
        exact ih hf2 hnodup.2 _

theorem update_spec (e : EntityVal) (qb : QueryBuilder) :
    qb.Update e = { qb with
        updateFields := qb.updateFields ++ e.fields.map (fun p => p.1 ++ " = ?"),
        whereArgs := qb.whereArgs ++ e.fields.map Prod.snd } := by
  obtain ⟨fields⟩ := e
  induction fields generalizing qb with
  | nil => simp [QueryBuilder.Update]
  | cons hd tl ih =>
      have hstep : qb.Update ⟨hd :: tl⟩ =
          QueryBuilder.Update
            { qb with updateFields := qb.updateFields ++ [hd.1 ++ " = ?"],
                      whereArgs := qb.whereArgs ++ [hd.2] } ⟨tl⟩ := rfl
      rw [hstep, ih]
      simp [List.append_assoc]

end GoBase

namespace GoBase

/-! ## Claim theorems -/

/-- Claim C1: `Build()` selects the emitted statement kind by a fixed
priority. When insert columns are present it renders an INSERT, returns the
insert values as the arguments, and produces the same SQL and arguments as if
the WHERE state were cleared (the WHERE clause and where-arguments are
silently omitted); otherwise when update fragments are present it renders an
UPDATE; otherwise when where-clauses are present it renders a DELETE;
otherwise it renders a SELECT. -/
theorem build_statement_kind_priority (t : String) (qb : QueryBuilder) :
    (qb.insertFields ≠ [] →
      (∃ rest, (qb.Build t).1 = "INSERT INTO " ++ rest)
        ∧ (qb.Build t).2.1 = qb.insertValues
        ∧ (qb.Build t).1 =
            (({ qb with whereClauses := [], whereArgs := [] } : QueryBuilder).Build t).1
        ∧ (qb.Build t).2.1 =
            (({ qb with whereClauses := [], whereArgs := [] } : QueryBuilder).Build t).2.1)
    ∧ (qb.insertFields = [] → qb.updateFields ≠ [] →
        ∃ rest, (qb.Build t).1 = "UPDATE " ++ rest)
    ∧ (qb.insertFields = [] → qb.updateFields = [] → qb.whereClauses ≠ [] →
        ∃ rest, (qb.Build t).1 = "DELETE FROM " ++ rest)
    ∧ (qb.insertFields = [] → qb.updateFields = [] → qb.whereClauses = [] →
        ∃ rest, (qb.Build t).1 = "SELECT " ++ rest) := by
  refine ⟨?_, ?_, ?_, ?_⟩
  · intro h1
    have h1' : 0 < qb.insertFields.length := List.length_pos.mpr h1
    refine ⟨?_, ?_, ?_, ?_⟩ <;>
      simp only [QueryBuilder.Build, gt_iff_lt, h1', if_true, String.append_assoc]
    exact ⟨_, rfl⟩
  · intro h1 h2
    have h2' : 0 < qb.updateFields.length := List.length_pos.mpr h2
    simp only [QueryBuilder.Build, gt_iff_lt, h1, List.length_nil, lt_self_iff_false,
      if_false, h2', if_true]
    split <;>
      · simp only [String.append_assoc]
        exact ⟨_, rfl⟩
  · intro h1 h2 h3
    have h3' : 0 < qb.whereClauses.length := List.length_pos.mpr h3
    simp only [QueryBuilder.Build, gt_iff_lt, h1, h2, List.length_nil, lt_self_iff_false,
      if_false, h3', true_and, if_true]
    simp only [String.append_assoc]
    exact ⟨_, rfl⟩
  · intro h1 h2 h3
    simp only [QueryBuilder.Build, gt_iff_lt, h1, h2, h3, List.length_nil, lt_self_iff_false,
      if_false, false_and]
    repeat' split
    all_goals
      · simp only [String.append_assoc]
        exact ⟨_, rfl⟩

/-- Witness for C1: a builder with both insert columns and a WHERE clause
renders the INSERT, returns the insert values, and produces the same SQL and
arguments as the builder with its WHERE state cleared. -/
theorem build_statement_kind_priority_witness :
    (qbInsertWhere.Build "User").2.1 = qbInsertWhere.insertValues
    ∧ (qbInsertWhere.Build "User").1 =
        (({ qbInsertWhere with whereClauses := [], whereArgs := [] } : QueryBuilder).Build
          "User").1
    ∧ (qbInsertWhere.Build "User").1 = "INSERT INTO user (ID) VALUES (?)" := by
  have h := (build_statement_kind_priority "User" qbInsertWhere).1 (by decide)
  exact ⟨h.2.1, h.2.2.1, by decide⟩

end GoBase

namespace GoBase

/-- Claim C2 (failing): `GetByID` builds
`WhereEqual("ID", id).Limit(1).Build()`, but `Build()` takes the DELETE
branch (where-clauses present, no insert fields), so the statement handed to
`QueryRow` is a DELETE over the lowercased table name with argument list
`[id]` — not a single-row SELECT, and the limit value 1 never reaches the
argument list (the DELETE branch returns before the limit is appended). -/
theorem getByID_query_renders_delete (t : String) (id : Val) :
    (GetByID_query t id).1 = "DELETE FROM " ++ goToLower t ++ " WHERE ID = ?"
    ∧ (GetByID_query t id).2.1 = [id] := by
  refine ⟨?_, rfl⟩
  show "DELETE FROM " ++ goToLower t ++ " WHERE " ++ "ID = ?"
      = "DELETE FROM " ++ goToLower t ++ " WHERE ID = ?"
  rw [String.append_assoc]
  rfl

/-- Claim C3 (failing): the builder chain
`Select("id","name").WhereEqual("age",25).OrderByASC("name").Limit(10)`
renders, under the `Build()` of src/query/query_builder.go, the pair
`("DELETE FROM user WHERE age = ?", [25])`, not the SELECT documented in
src/query/README.md; the README's own `Build()` variant does produce the
documented SELECT pair. -/
theorem select_example_diverges :
    (selectExampleBuilder.Build "User").1 = "DELETE FROM user WHERE age = ?"
    ∧ (selectExampleBuilder.Build "User").2.1 = [Val.intV 25]
    ∧ (selectExampleBuilder.BuildReadme "User").1
        = "SELECT id, name FROM user WHERE age = ? ORDER BY name ASC LIMIT ?"
    ∧ (selectExampleBuilder.BuildReadme "User").2.1 = [Val.intV 25, Val.intV 10] := by
  decide

/-- Claim C4: a builder on which only `WhereEqual("id", 7)` was called
renders `("DELETE FROM <table> WHERE id = ?", [7])`, where the table is the
lowercased bare entity type name. -/
theorem delete_detection (t : String) :
    ((NewQueryBuilder.WhereEqual "id" (Val.intV 7)).Build t).1
        = "DELETE FROM " ++ goToLower t ++ " WHERE id = ?"
    ∧ ((NewQueryBuilder.WhereEqual "id" (Val.intV 7)).Build t).2.1 = [Val.intV 7] := by
  refine ⟨?_, rfl⟩
  show "DELETE FROM " ++ goToLower t ++ " WHERE " ++ "id = ?"
      = "DELETE FROM " ++ goToLower t ++ " WHERE id = ?"
  rw [String.append_assoc]
  rfl

end GoBase

namespace GoBase

/-- Claim C5: in the SELECT path with a positive limit, `Build()` appends the
limit value to the positional argument list as the last argument at render
time, mutating the builder; a second `Build()` on the returned state appends
the limit again, so its argument list differs from the first call's. -/
theorem limit_append_nonidempotent (t : String) (qb : QueryBuilder)
    (h1 : qb.insertFields = []) (h2 : qb.updateFields = []) (h3 : qb.whereClauses = [])
    (h4 : 0 < qb.limit) :
    (qb.Build t).2.1 = qb.whereArgs ++ [Val.intV qb.limit]
    ∧ ((qb.Build t).2.2.Build t).2.1
        = (qb.whereArgs ++ [Val.intV qb.limit]) ++ [Val.intV qb.limit]
    ∧ ((qb.Build t).2.2.Build t).2.1 ≠ (qb.Build t).2.1 := by
  have key1 : (qb.Build t).2.1 = qb.whereArgs ++ [Val.intV qb.limit] := by
    simp [QueryBuilder.Build, h1, h2, h3, h4]
  have key2 : ((qb.Build t).2.2.Build t).2.1
      = (qb.whereArgs ++ [Val.intV qb.limit]) ++ [Val.intV qb.limit] := by
    simp [QueryBuilder.Build, h1, h2, h3, h4]
  refine ⟨key1, key2, ?_⟩
  rw [key1, key2]
  intro heq
  have hlen := congrArg List.length heq
  simp only [List.length_append, List.length_cons, List.length_nil] at hlen
  omega

/-- Witness for C5: a SELECT-path builder with limit 3 and a pre-existing
argument list; the first `Build()` appends 3 after the existing argument, the
second appends 3 again, and the two argument lists differ. -/
theorem limit_append_nonidempotent_witness :
    (qbLimitEx.Build "User").2.1 = qbLimitEx.whereArgs ++ [Val.intV qbLimitEx.limit]
    ∧ ((qbLimitEx.Build "User").2.2.Build "User").2.1
        = (qbLimitEx.whereArgs ++ [Val.intV qbLimitEx.limit]) ++ [Val.intV qbLimitEx.limit]
    ∧ ((qbLimitEx.Build "User").2.2.Build "User").2.1 ≠ (qbLimitEx.Build "User").2.1
    ∧ (qbLimitEx.Build "User").2.1 = [Val.intV 9, Val.intV 3] := by
  have h := limit_append_nonidempotent "User" qbLimitEx rfl rfl rfl (by decide)
  exact ⟨h.1, h.2.1, h.2.2, by decide⟩

/-- Claim C6, amended: `Update(e)` appends one `"<field> = ?"` fragment per
declared field of `e` in declaration order and pushes each value onto the
shared argument list; when `e` has at least one declared field, a builder
with `Update(e)` then `WhereEqual(f, v)` renders
`UPDATE <table> SET <fragments> WHERE f = ?` with all of `e`'s field values
preceding `v` in the argument list. (For an entity with no declared fields
the update-fragment list stays empty and `Build()` takes the DELETE branch
instead — see the counterexample.) -/
theorem update_then_where_renders_update (t f : String) (v : Val) (e : EntityVal)
    (qb : QueryBuilder) (hne : e.fields ≠ []) :
    qb.Update e = { qb with
        updateFields := qb.updateFields ++ e.fields.map (fun p => p.1 ++ " = ?"),
        whereArgs := qb.whereArgs ++ e.fields.map Prod.snd }
    ∧ (((NewQueryBuilder.Update e).WhereEqual f v).Build t).1
        = "UPDATE " ++ goToLower t ++ " SET "
            ++ goJoin (e.fields.map (fun p => p.1 ++ " = ?")) ", "
            ++ " WHERE " ++ f ++ " = ?"
    ∧ (((NewQueryBuilder.Update e).WhereEqual f v).Build t).2.1
        = e.fields.map Prod.snd ++ [v] := by
  have hb : (NewQueryBuilder.Update e).WhereEqual f v
      = { NewQueryBuilder with
            updateFields := e.fields.map (fun p => p.1 ++ " = ?"),
            whereArgs := e.fields.map Prod.snd ++ [v],
            whereClauses := [f ++ " = ?"] } := by
    rw [update_spec]
    simp [QueryBuilder.WhereEqual, NewQueryBuilder]
  have hlen : 0 < (e.fields.map (fun p => p.1 ++ " = ?")).length := by
    simpa using List.length_pos.mpr hne
  refine ⟨update_spec e qb, ?_, ?_⟩
  · rw [hb]
    simp only [QueryBuilder.Build, gt_iff_lt, List.length_nil, lt_self_iff_false, if_false,
      hlen, if_true, List.length_cons, Nat.zero_lt_succ, goJoin, List.foldl_nil,
      String.append_assoc]
    rfl
  · rw [hb]
    have hpos : 0 < e.fields.length := List.length_pos.mpr hne
    simp [QueryBuilder.Build, NewQueryBuilder, hlen, hpos]

/-- Witness for C6: updating a one-field entity and filtering on `ID` renders
an UPDATE whose argument list is the field value followed by the filter
value. -/
theorem update_then_where_witness :
    (((NewQueryBuilder.Update updateEntityEx).WhereEqual "ID" (Val.intV 5)).Build "User").1
        = "UPDATE " ++ goToLower "User" ++ " SET "
            ++ goJoin (updateEntityEx.fields.map (fun p => p.1 ++ " = ?")) ", "
            ++ " WHERE " ++ "ID" ++ " = ?"
    ∧ (((NewQueryBuilder.Update updateEntityEx).WhereEqual "ID"
          (Val.intV 5)).Build "User").2.1
        = updateEntityEx.fields.map Prod.snd ++ [Val.intV 5]
    ∧ (((NewQueryBuilder.Update updateEntityEx).WhereEqual "ID"
          (Val.intV 5)).Build "User").1
        = "UPDATE user SET Name = ? WHERE ID = ?" := by
  have h := update_then_where_renders_update "User" "ID" (Val.intV 5) updateEntityEx
    NewQueryBuilder (by decide)
  exact ⟨h.2.1, h.2.2, by decide⟩

/-- Counterexample for C6 as stated: for an entity value with no declared
fields, `Update(e)` followed by `WhereEqual("id", 1)` renders a DELETE, not
the UPDATE statement the claim predicts. -/
theorem update_empty_entity_counterexample :
    ((((NewQueryBuilder.Update ⟨[]⟩).WhereEqual "id" (Val.intV 1)).Build "Empty").1
        = "DELETE FROM empty WHERE id = ?")
    ∧ ¬ ((((NewQueryBuilder.Update ⟨[]⟩).WhereEqual "id" (Val.intV 1)).Build "Empty").1
        = "UPDATE " ++ goToLower "Empty" ++ " SET "
            ++ goJoin (((⟨[]⟩ : EntityVal)).fields.map (fun p => p.1 ++ " = ?")) ", "
            ++ " WHERE " ++ "id" ++ " = ?") := by
  decide

end GoBase

namespace GoBase

/-- Claim C7: for every model registered via `RegisterModels` (distinct type
names, distinct field names as Go structs guarantee) and every declared field
of that model, the resolved column equals the `db` tag value when present and
the field's own name otherwise; `GetFields` returns the stored field map
itself, so repeated lookups read the same cached map rather than
recomputing it. -/
theorem resolve_column (models : List Model) (m : Model) (f : ModelField)
    (hm : m ∈ models) (hf : f ∈ m.fields)
    (hT : (models.map Model.typeName).Nodup)
    (hF : (m.fields.map ModelField.name).Nodup) :
    GetField (RegisterModels models) m.typeName f.name
        = .ok (match f.dbTag with | some tag => tag | none => f.name)
    ∧ GetFields (RegisterModels models) m.typeName = .ok (buildFieldMap m.fields) := by
  have hreg : goMapLoad (RegisterModels models) m.typeName = some (buildFieldMap m.fields) :=
    foldl_registerModel_mem models [] m hm hT
  have hfield : goMapLoad (buildFieldMap m.fields) f.name = some (columnOf f) :=
    buildFieldMap_lookup m.fields f hf hF
  constructor
  · simp only [GetField, hreg, hfield, columnOf]
  · simp only [GetFields, hreg]

/-- Witness for C7: registering a model with an untagged field `ID` and a
`db`-tagged field `Name`, the tagged field resolves to the tag value and the
untagged one to its own name, and `GetFields` returns the stored map. -/
theorem resolve_column_witness :
    GetField (RegisterModels [userModel]) "User" "Name" = .ok "name"
    ∧ GetField (RegisterModels [userModel]) "User" "ID" = .ok "ID"
    ∧ GetFields (RegisterModels [userModel]) "User" = .ok (buildFieldMap userModel.fields) := by
  have h1 := resolve_column [userModel] userModel ⟨"Name", some "name"⟩
    (by decide) (by decide) (by decide) (by decide)
  have h2 := resolve_column [userModel] userModel ⟨"ID", none⟩
    (by decide) (by decide) (by decide) (by decide)
  exact ⟨h1.1, h2.1, h1.2⟩

/-- Claim C8: a registry lookup fails (the source panics; here `Except.error`)
if and only if the type was never registered or, for `GetField`, the field
name is absent from the registered map; for a registered type with a present
field it returns the column name without failing. -/
theorem registry_failure_characterization (cache : Registry) (t fname : String) :
    ((∃ msg, GetFields cache t = .error msg) ↔ goMapLoad cache t = none)
    ∧ ((∃ msg, GetField cache t fname = .error msg) ↔
        (goMapLoad cache t = none
          ∨ ∃ fm, goMapLoad cache t = some fm ∧ goMapLoad fm fname = none))
    ∧ (∀ fm c, goMapLoad cache t = some fm → goMapLoad fm fname = some c →
        GetField cache t fname = .ok c) := by
  refine ⟨?_, ?_, ?_⟩
  · cases hcl : goMapLoad cache t with
    | none => simp [GetFields, hcl]
    | some fm => simp [GetFields, hcl]
  · cases hcl : goMapLoad cache t with
    | none => simp [GetField, hcl]
    | some fm =>
        cases hfl : goMapLoad fm fname with
        | none => simp [GetField, hcl, hfl]
        | some c => simp [GetField, hcl, hfl]
  · intro fm c hcl hfl
    simp only [GetField, hcl, hfl]

/-- Witness for C8: in a registry holding one model with field `ID` tagged
`id`, the registered lookup succeeds with the column name, while lookups for
an unregistered type or an absent field fail. -/
theorem registry_failure_witness :
    GetField regExample "User" "ID" = .ok "id"
    ∧ (∃ msg, GetField regExample "User" "Nope" = .error msg)
    ∧ (∃ msg, GetFields regExample "Order" = .error msg) := by
  refine ⟨?_, ?_, ?_⟩
  · exact (registry_failure_characterization regExample "User" "ID").2.2
      [("ID", "id")] "id" (by decide) (by decide)
  · exact (registry_failure_characterization regExample "User" "Nope").2.1.mpr
      (Or.inr ⟨[("ID", "id")], by decide, by decide⟩)
  · exact (registry_failure_characterization regExample "Order" "ID").1.mpr (by decide)

/-- Claim C9: `NewSuccessResultWithCode` panics (here `Except.error`) exactly
when the code lies outside the inclusive range 200–299; inside the range it
returns the given data, message and code with the success flag true; and
`NewSuccessResult` always returns code 200 with the success flag true. -/
theorem success_result_code_contract {T : Type} (data : T) (code : Int) (message : String) :
    ((∃ msg, NewSuccessResultWithCode data code message = .error msg)
        ↔ (code < 200 ∨ 299 < code))
    ∧ (200 ≤ code → code ≤ 299 →
        NewSuccessResultWithCode data code message
          = .ok { data := data, message := message, code := code, success := true })
    ∧ NewSuccessResult data message
        = { data := data, message := message, code := 200, success := true } := by
  refine ⟨?_, ?_, rfl⟩
  · unfold NewSuccessResultWithCode
    split
    · rename_i h
      constructor
      · intro _
        omega
      · intro _
        exact ⟨_, rfl⟩
    · rename_i h
      simp only [not_or, not_lt] at h
      constructor
      · rintro ⟨msg, hmsg⟩
        simp at hmsg
      · intro hc
        omega
  · intro ha hb
    rw [NewSuccessResultWithCode, if_neg (by omega)]

/-- Witness for C9: code 250 is accepted with the given payload; the
no-code constructor returns code 200. -/
theorem success_result_code_witness :
    NewSuccessResultWithCode (0 : Int) 250 "ok"
        = .ok { data := (0 : Int), message := "ok", code := 250, success := true }
    ∧ NewSuccessResult (1 : Int) "hi"
        = { data := (1 : Int), message := "hi", code := 200, success := true } := by
  have h1 := success_result_code_contract (0 : Int) 250 "ok"
  have h2 := success_result_code_contract (1 : Int) 250 "hi"
  exact ⟨h1.2.1 (by decide) (by decide), h2.2.2⟩

end GoBase

namespace GoBase

/-- Claim C10: when the limit was last set to `n ≤ 0` (or never set, leaving
the zero default), `Build()` produces the same SQL and argument list as with
the untouched zero limit — no LIMIT clause is rendered and no limit value is
appended — the builder state is not mutated, the argument list is exactly the
pre-existing where-arguments (or insert values, in the INSERT branch), and
`Limit(0)` on a builder whose limit is the default leaves the builder
unchanged. -/
theorem limit_nonpositive_no_limit (t : String) (qb : QueryBuilder) (n : Int)
    (hn : n ≤ 0) :
    ((qb.Limit n).Build t).1 = (({ qb with limit := 0 } : QueryBuilder).Build t).1
    ∧ ((qb.Limit n).Build t).2.1 = (({ qb with limit := 0 } : QueryBuilder).Build t).2.1
    ∧ ((qb.Limit n).Build t).2.2 = qb.Limit n
    ∧ (((qb.Limit n).Build t).2.1 = qb.whereArgs
        ∨ ((qb.Limit n).Build t).2.1 = qb.insertValues)
    ∧ (qb.limit = 0 → qb.Limit 0 = qb) := by
  have hn' : ¬ ((0 : Int) < n) := not_lt.mpr hn
  have hLim0 : qb.limit = 0 → qb.Limit 0 = qb := by
    intro h
    cases qb
    simp_all [QueryBuilder.Limit]
  by_cases hi : 0 < qb.insertFields.length
  · exact ⟨by simp [QueryBuilder.Build, QueryBuilder.Limit, hi],
      by simp [QueryBuilder.Build, QueryBuilder.Limit, hi],
      by simp [QueryBuilder.Build, QueryBuilder.Limit, hi],
      Or.inr (by simp [QueryBuilder.Build, QueryBuilder.Limit, hi]), hLim0⟩
  · have hie : qb.insertFields = [] :=
      List.length_eq_zero.mp (Nat.le_zero.mp (not_lt.mp hi))
    by_cases hu : 0 < qb.updateFields.length
    · exact ⟨by simp [QueryBuilder.Build, QueryBuilder.Limit, hi, hu],
        by simp [QueryBuilder.Build, QueryBuilder.Limit, hi, hu],
        by simp [QueryBuilder.Build, QueryBuilder.Limit, hi, hu],
        Or.inl (by simp [QueryBuilder.Build, QueryBuilder.Limit, hi, hu]), hLim0⟩
    · by_cases hw : 0 < qb.whereClauses.length
      · exact ⟨by simp [QueryBuilder.Build, QueryBuilder.Limit, hi, hu, hw, hie],
          by simp [QueryBuilder.Build, QueryBuilder.Limit, hi, hu, hw, hie],
          by simp [QueryBuilder.Build, QueryBuilder.Limit, hi, hu, hw, hie],
          Or.inl (by simp [QueryBuilder.Build, QueryBuilder.Limit, hi, hu, hw, hie]), hLim0⟩
      · exact ⟨by simp [QueryBuilder.Build, QueryBuilder.Limit, hi, hu, hw, hn'],
          by simp [QueryBuilder.Build, QueryBuilder.Limit, hi, hu, hw, hn'],
          by simp [QueryBuilder.Build, QueryBuilder.Limit, hi, hu, hw, hn'],
          Or.inl (by simp [QueryBuilder.Build, QueryBuilder.Limit, hi, hu, hw, hn']), hLim0⟩

/-- Witness for C10: a one-column SELECT builder with `Limit(0)` renders the
same query as with the untouched default limit, with no LIMIT clause and an
empty argument list, and `Limit(0)` leaves the fresh builder unchanged. -/
theorem limit_nonpositive_witness :
    ((qbSelectEx.Limit 0).Build "User").1
        = (({ qbSelectEx with limit := 0 } : QueryBuilder).Build "User").1
    ∧ ((qbSelectEx.Limit 0).Build "User").2.1
        = (({ qbSelectEx with limit := 0 } : QueryBuilder).Build "User").2.1
    ∧ ((qbSelectEx.Limit 0).Build "User").2.2 = qbSelectEx.Limit 0
    ∧ (qbSelectEx.Limit 0 = qbSelectEx)
    ∧ ((qbSelectEx.Limit 0).Build "User").1 = "SELECT id FROM user"
    ∧ ((qbSelectEx.Limit 0).Build "User").2.1 = [] := by
  have h := limit_nonpositive_no_limit "User" qbSelectEx 0 (by decide)
  exact ⟨h.1, h.2.1, h.2.2.1, h.2.2.2.2 rfl, by decide, by decide⟩

end GoBase
